import Mathlib

/-!
Shallow embedding of the token-gated account-activation flow, the
role-aware middleware and the admin server actions of the
portal-becados-di repository.

Tables are embedded as Lean lists of rows; each server action becomes a
pure function from the table state (plus an environment of outcomes for
the external calls it awaits: credential-store calls, injected database
errors, the session user) to a result record carrying the uniform
`{success, message}` shape of the source together with the updated
tables.
-/

set_option maxRecDepth 4000

/-- JavaScript falsy test for a nullable string column
(`!x` is true for `null`/`undefined` and for the empty string). -/
def falsyStr : Option String → Bool
  | none => true
  | some s => s = ""

/-- `s.trim()`: drop whitespace from both ends (structurally recursive
rendering of the library function, so that it evaluates). -/
def jsTrim (s : String) : String :=
  ⟨(((s.data.dropWhile Char.isWhitespace).reverse.dropWhile Char.isWhitespace).reverse)⟩

/-- `s.toLowerCase()` -/
def jsToLower (s : String) : String :=
  ⟨s.data.map Char.toLower⟩

/-- Character-list prefix test backing `String.prototype.startsWith`. -/
def leadsWith : List Char → List Char → Bool
  | [], _ => true
  | _ :: _, [] => false
  | p :: ps, c :: cs => p = c && leadsWith ps cs

/-- `s.startsWith(pre)` -/
def strStartsWith (s pre : String) : Bool :=
  leadsWith pre.data s.data

/-- A JavaScript number as it matters to this code base: either `NaN` or a
real (rational) value.  `isNaN` and the `<= 0` comparison are the only
numeric operations the source performs on hour counts. -/
inductive JSNum where
  | nan : JSNum
  | num : ℚ → JSNum
deriving DecidableEq, Repr

/-- `isNaN(x)` -/
def JSNum.isNaN : JSNum → Bool
  | .nan => true
  | .num _ => false

/-- `x <= 0` (false for `NaN`, as in JavaScript). -/
def JSNum.le0 : JSNum → Bool
  | .nan => false
  | .num q => q ≤ 0

/-- Row of the `estudiantes` table, restricted to the columns the
embedded server actions read or write. -/
structure Estudiante where
  id : String
  id_becado_interno : Option String
  nombre_completo_becado : Option String
  correo_personal : Option String
  auth_user_id : Option String
  ha_completado_onboarding : Bool
  onboarding_token : Option String
  fecha_de_nacimiento : Option String
  telefono_llamada : Option String
  telefono_whatsapp : Option String
  id_becado_universidad : Option String
  correo_estudiantil : Option String
  departamento : Option String
  municipio : Option String
  distrito : Option String
  nombre_emergencia : Option String
  telefono_emergencia : Option String
  parentesco_emergencia : Option String
  tiene_una_discapacidad : Option Bool
  detalle_discapacidad : Option String
  miembro_de_consejo : Option Bool
  becado_elite : Option Bool
  url_carnet_digital : Option String
  url_expediente_digital : Option String
deriving DecidableEq, Repr

/-- A blank row of `estudiantes`, convenient for building concrete states. -/
def estudianteBase : Estudiante where
  id := ""
  id_becado_interno := none
  nombre_completo_becado := none
  correo_personal := none
  auth_user_id := none
  ha_completado_onboarding := false
  onboarding_token := none
  fecha_de_nacimiento := none
  telefono_llamada := none
  telefono_whatsapp := none
  id_becado_universidad := none
  correo_estudiantil := none
  departamento := none
  municipio := none
  distrito := none
  nombre_emergencia := none
  telefono_emergencia := none
  parentesco_emergencia := none
  tiene_una_discapacidad := none
  detalle_discapacidad := none
  miembro_de_consejo := none
  becado_elite := none
  url_carnet_digital := none
  url_expediente_digital := none

/-- `.eq('onboarding_token', token).single()`: PostgREST `single()`
succeeds exactly when one row matches; zero or several rows yield an
error (modelled as `none`). -/
def findByToken (db : List Estudiante) (token : String) : Option Estudiante :=
  match db.filter (fun e => e.onboarding_token = some token) with
  | [e] => some e
  | _ => none

/-- Result shape of `validarToken`: `{ success, message, estudiante }`
where `estudiante` carries `(nombre_completo_becado, correo_personal)`. -/
structure ValidacionResult where
  success : Bool
  message : String
  estudiante : Option (String × String)
deriving DecidableEq, Repr

/-- `validarToken` from `src/app/activar/actions.ts`: looks the student
up by `onboarding_token`, fails when no (unique) row matches, when the
row is already onboarded, or when display fields are missing. -/
def validarToken (db : List Estudiante) (token : String) : ValidacionResult :=
  match findByToken db token with
  | none => ⟨false, "Token inválido o no encontrado", none⟩
  | some e =>
    if e.ha_completado_onboarding then
      ⟨false, "Este token ya ha sido utilizado", none⟩
    else if falsyStr e.nombre_completo_becado || falsyStr e.correo_personal then
      ⟨false, "Faltan datos requeridos en el registro del estudiante", none⟩
    else
      ⟨true, "", some (e.nombre_completo_becado.getD "", e.correo_personal.getD "")⟩

/-- The Zod password policy of `src/app/activar/actions.ts`: at least 8
characters, one upper-case letter, one lower-case letter, one digit.
Returns the first failing issue message (Zod reports issues in chain
order), `none` when the password passes. -/
def passwordCheck (p : String) : Option String :=
  if p.length < 8 then some "La contraseña debe tener al menos 8 caracteres"
  else if !(p.toList.any Char.isUpper) then
    some "La contraseña debe contener al menos una letra mayúscula"
  else if !(p.toList.any Char.isLower) then
    some "La contraseña debe contener al menos una letra minúscula"
  else if !(p.toList.any Char.isDigit) then
    some "La contraseña debe contener al menos un número"
  else none

/-- `email.trim().toLowerCase()` -/
def normalizeEmail (s : String) : String := jsToLower (jsTrim s)

/-- The conditional update of step 2 of `activarCuenta`: every row whose
`onboarding_token` equals the given token gets linked to the new
credential and its token burned to null, in one update. -/
def burnToken (db : List Estudiante) (token uid email : String) : List Estudiante :=
  db.map (fun e =>
    if e.onboarding_token = some token then
      { e with auth_user_id := some uid
               correo_personal := some email
               ha_completado_onboarding := true
               onboarding_token := none }
    else e)

/-- What `activarCuenta` finally does: return a `{success, message}`
object, or redirect (Next.js `redirect` throws past the function). -/
inductive ActivarOutcome where
  | res : Bool → String → ActivarOutcome
  | redirectTo : String → ActivarOutcome
deriving DecidableEq, Repr

/-- Outcomes of the external calls `activarCuenta` awaits, plus the
table snapshots it sees.  `dbAtValidation` is the `estudiantes` state at
step 0 (token re-validation) and `dbAtUpdate` the state when the
conditional update of step 2 runs - they differ exactly when a
concurrent writer touched the table in between. -/
structure ActivarEnv where
  dbAtValidation : List Estudiante
  dbAtUpdate : List Estudiante
  /-- `auth.admin.createUser`: `some uid` on success, `none` on error. -/
  createUserResult : Option String
  /-- `createUserError?.message` (empty string when absent). -/
  createUserErrorMsg : String
  /-- injected error of the step-2 update (`none` = update ran fine). -/
  updateError : Option String
  /-- `signInWithPassword` succeeded. -/
  signInOk : Bool
  /-- the post-login `usuarios_administrativos` lookup found a row. -/
  isAdminAfter : Bool
deriving Repr

/-- Result of `activarCuenta`: outcome, final `estudiantes` table, the
credential-store identity created (if any), and whether the code
compensated by deleting that identity. -/
structure ActivarResult where
  outcome : ActivarOutcome
  db : List Estudiante
  createdUser : Option String
  deletedCreatedUser : Bool
deriving DecidableEq, Repr

/-- `activarCuenta` from `src/app/activar/actions.ts`.  Mirrors the
source step by step: re-validate the token, validate the password,
create the credential-store user, run the conditional update keyed on
`onboarding_token` (compensating with `deleteUser` only when that update
returns an error), then sign in and redirect. -/
def activarCuenta (env : ActivarEnv) (token email password : String) : ActivarResult :=
  if (validarToken env.dbAtValidation token).success = false then
    ⟨.res false (validarToken env.dbAtValidation token).message,
      env.dbAtValidation, none, false⟩
  else
    match passwordCheck password with
    | some msg => ⟨.res false msg, env.dbAtValidation, none, false⟩
    | none =>
      match env.createUserResult with
      | none =>
        ⟨.res false
          (if env.createUserErrorMsg = "" then
            "Error al crear la cuenta. El correo podría estar en uso."
          else env.createUserErrorMsg),
          env.dbAtValidation, none, false⟩
      | some uid =>
        match env.updateError with
        | some _ =>
          -- update errored: compensate by deleting the created user
          ⟨.res false "Error al vincular la cuenta. Por favor, intenta nuevamente.",
            env.dbAtUpdate, some uid, true⟩
        | none =>
          -- token burned (even if the update matched zero rows!)
          if env.signInOk then
            if env.isAdminAfter then
              ⟨.redirectTo "/admin/dashboard",
                burnToken env.dbAtUpdate token uid (normalizeEmail email), some uid, false⟩
            else
              ⟨.redirectTo "/dashboard",
                burnToken env.dbAtUpdate token uid (normalizeEmail email), some uid, false⟩
          else
            -- account exists and token is burned: send the user to manual login
            ⟨.redirectTo "/login",
              burnToken env.dbAtUpdate token uid (normalizeEmail email), some uid, false⟩

/-! ## Approval workflow (`src/app/(admin)/admin/solicitudes/actions.ts`) -/

/-- Row of the `solicitudes_horas` table. -/
structure Solicitud where
  id : String
  estudiante_id : String
  fecha_solicitud : String
  nombre_actividad : String
  fecha_actividad : String
  cantidad_horas : JSNum
  responsable_encargado : Option String
  estado : String
deriving DecidableEq, Repr

/-- Row of the `horas_voluntariados` ledger table (denormalised at
approval time). -/
structure HorasRow where
  id_becado_interno : String
  nombre_completo_becado : String
  fecha_actividad : String
  nombre_actividad : String
  cantidad_horas : JSNum
  responsable_encargado : String
  estado : String
deriving DecidableEq, Repr

/-- The tables the approval workflow touches. -/
structure WorkflowState where
  solicitudes : List Solicitud
  estudiantes : List Estudiante
  horas : List HorasRow
deriving DecidableEq, Repr

/-- Uniform result of the two workflow actions: the source `{success,
message}` object together with the updated tables. -/
structure WorkflowResult where
  success : Bool
  message : String
  state : WorkflowState
deriving DecidableEq, Repr

/-- `.eq('id', solicitudId).single()` on `solicitudes_horas`. -/
def findSolicitud (db : List Solicitud) (id : String) : Option Solicitud :=
  match db.filter (fun s => s.id = id) with
  | [s] => some s
  | _ => none

/-- `.eq('id', estudianteId).single()` on `estudiantes`. -/
def findEstudianteById (db : List Estudiante) (id : String) : Option Estudiante :=
  match db.filter (fun e => e.id = id) with
  | [e] => some e
  | _ => none

/-- `.update({estado}).eq('id', solicitudId)` on `solicitudes_horas`. -/
def setEstado (db : List Solicitud) (id st : String) : List Solicitud :=
  db.map (fun s => if s.id = id then { s with estado := st } else s)

/-- The JavaScript guard `!solicitudId || solicitudId === 'undefined'`
(a `string` argument is falsy exactly when empty). -/
def invalidSolicitudId (id : String) : Bool :=
  id = "" || id = "undefined"

/-- `rechazarSolicitud`: after the id guard, unconditionally updates the
request status to `'rechazado'` - the current status is never read.
`updateError` injects a database error for the lone update. -/
def rechazarSolicitud (st : WorkflowState) (solicitudId : String)
    (updateError : Option String) : WorkflowResult :=
  if invalidSolicitudId solicitudId then
    ⟨false, "ID de solicitud inválido.", st⟩
  else
    match updateError with
    | some _ =>
      ⟨false, "Error al rechazar la solicitud. Por favor, intenta nuevamente.", st⟩
    | none =>
      ⟨true, "Solicitud rechazada correctamente.",
        { st with solicitudes := setEstado st.solicitudes solicitudId "rechazado" }⟩

/-- The `horasData` object `aprobarSolicitud` inserts into
`horas_voluntariados`: the student's internal id and display name
denormalised next to the request data and the final hour count. -/
def horasDataOf (solicitud : Solicitud) (estudiante : Estudiante)
    (nombre : String) (cantidadHorasFinal : JSNum) : HorasRow :=
  { id_becado_interno := estudiante.id_becado_interno.getD ""
    nombre_completo_becado := nombre
    fecha_actividad := solicitud.fecha_actividad
    nombre_actividad := solicitud.nombre_actividad
    cantidad_horas := cantidadHorasFinal
    responsable_encargado :=
      if falsyStr solicitud.responsable_encargado then "N/A"
      else solicitud.responsable_encargado.getD ""
    estado := "validado" }

/-- `aprobarSolicitud`: fetch the request, refuse already-processed
ones, resolve the student's internal id and display name, pick the
admin-supplied hour override if present, validate it, insert the ledger
row and finally mark the request approved.  `insertError`/`updateError`
inject database errors for the two writes. -/
def aprobarSolicitud (st : WorkflowState) (solicitudId : String)
    (horasAprobadas : Option JSNum) (insertError updateError : Option String) :
    WorkflowResult :=
  if invalidSolicitudId solicitudId then
    ⟨false, "ID de solicitud inválido.", st⟩
  else
    match findSolicitud st.solicitudes solicitudId with
    | none => ⟨false, "No se pudo encontrar la solicitud.", st⟩
    | some solicitud =>
      if solicitud.estado = "aprobado" || solicitud.estado = "rechazado" then
        ⟨false, "Esta solicitud ya ha sido procesada.", st⟩
      else
        match findEstudianteById st.estudiantes solicitud.estudiante_id with
        | none => ⟨false, "No se pudo encontrar el estudiante asociado a esta solicitud.", st⟩
        | some estudiante =>
          if falsyStr estudiante.id_becado_interno then
            ⟨false, "El estudiante no tiene un ID de becado interno asignado.", st⟩
          else
            match estudiante.nombre_completo_becado with
            | none => ⟨false, "El estudiante no tiene un nombre completo asignado.", st⟩
            | some nombre =>
              if jsTrim nombre = "" then
                ⟨false, "El estudiante no tiene un nombre completo asignado.", st⟩
              else
                if (horasAprobadas.getD solicitud.cantidad_horas).isNaN
                    || (horasAprobadas.getD solicitud.cantidad_horas).le0 then
                  ⟨false, "La cantidad de horas debe ser un número mayor a 0.", st⟩
                else
                  match insertError with
                  | some _ =>
                    ⟨false, "Error al registrar las horas de voluntariado. Por favor, intenta nuevamente.", st⟩
                  | none =>
                    match updateError with
                    | some _ =>
                      ⟨false, "Las horas se registraron, pero hubo un error al actualizar el estado de la solicitud.",
                        { st with horas := st.horas ++
                            [horasDataOf solicitud estudiante nombre (horasAprobadas.getD solicitud.cantidad_horas)] }⟩
                    | none =>
                      ⟨true, "Solicitud aprobada y horas registradas correctamente.",
                        { st with
                            solicitudes := setEstado st.solicitudes solicitudId "aprobado"
                            horas := st.horas ++
                              [horasDataOf solicitud estudiante nombre (horasAprobadas.getD solicitud.cantidad_horas)] }⟩

/-! ## Admin student actions (`src/app/(admin)/admin/estudiantes/actions.ts`) -/

/-- Substring test (`message?.includes(pat)` for a non-empty pattern),
via `splitOn`: the pattern occurs iff splitting produces ≥ 2 pieces. -/
def hasSub (s pat : String) : Bool := (s.splitOn pat).length != 1

/-- Outcome of a `maybeSingle()` lookup: a row, no row, or an error
(PostgREST errors `maybeSingle` when several rows match; a backend
failure is the same observable). -/
inductive LookupRes where
  | found : LookupRes
  | notFound : LookupRes
  | err : LookupRes
deriving DecidableEq, Repr

/-- The `usuarios_administrativos` admin-role lookup
(`.select('id').eq('auth_user_id', uid).maybeSingle()`) over the list of
admin `auth_user_id`s. -/
def adminLookup (admins : List String) (uid : String) : LookupRes :=
  match admins.filter (fun a => a = uid) with
  | [] => .notFound
  | [_] => .found
  | _ => .err

/-- `isAdmin = !adminError && adminData !== null` -/
def isAdminOf (admins : List String) (uid : String) : Bool :=
  adminLookup admins uid = .found

/-- The `.or(id.eq.X, id_becado_interno.eq.X).maybeSingle()` student
search shared by the two admin actions.  No row and several rows both
end in the same `'No se pudo encontrar...'` failure, so they collapse to
`none` here. -/
def findEstudianteOr (db : List Estudiante) (key : String) : Option Estudiante :=
  match db.filter (fun e => e.id = key || e.id_becado_interno = some key) with
  | [e] => some e
  | _ => none

/-- A database error as the source sees it: `{ code, message }`. -/
structure DbError where
  code : String
  message : String
deriving DecidableEq, Repr

/-- The specialised error message both admin actions derive from an
update error (column-missing, RLS, generic), parameterised by the two
action-specific texts. -/
def updateErrorMessage (permText generic : String) (e : DbError) : String :=
  if e.code = "PGRST202" || hasSub e.message "column" || hasSub e.message "does not exist" then
    "Error: Una o más columnas no existen en la base de datos. Por favor, contacta al administrador del sistema. Detalles: " ++ e.message
  else if e.code = "PGRST301" || hasSub e.message "permission" || hasSub e.message "policy" then
    permText
  else
    generic ++ (if e.message = "" then "Error desconocido" else e.message) ++ ". Por favor, intenta nuevamente."

/-- `estudiante.nombre_completo_becado || estudiante.id_becado_interno || 'estudiante'` -/
def displayNameOf (e : Estudiante) : String :=
  if falsyStr e.nombre_completo_becado then
    (if falsyStr e.id_becado_interno then "estudiante" else e.id_becado_interno.getD "")
  else e.nombre_completo_becado.getD ""

/-- The `datosReset` update of `resetearPerfilEstudiante`: every
student-editable wizard field and both document URLs go to null; all
other columns are left alone. -/
def aplicarReset (e : Estudiante) : Estudiante :=
  { e with fecha_de_nacimiento := none
           telefono_llamada := none
           telefono_whatsapp := none
           id_becado_universidad := none
           correo_estudiantil := none
           departamento := none
           municipio := none
           distrito := none
           nombre_emergencia := none
           telefono_emergencia := none
           parentesco_emergencia := none
           tiene_una_discapacidad := none
           detalle_discapacidad := none
           miembro_de_consejo := none
           becado_elite := none
           url_carnet_digital := none
           url_expediente_digital := none }

/-- Session and injected-failure environment of the two admin actions. -/
structure AdminActionEnv where
  /-- `auth.getUser()`: the authenticated caller, if any. -/
  user : Option String
  /-- contents of `usuarios_administrativos` (`auth_user_id` column). -/
  admins : List String
  /-- injected error for the `estudiantes` update. -/
  updateError : Option DbError
deriving Repr

/-- Result of `resetearPerfilEstudiante`: `{success, message}` plus the
resulting `estudiantes` table. -/
structure ResetResult where
  success : Bool
  message : String
  estudiantes : List Estudiante
deriving DecidableEq, Repr

/-- `resetearPerfilEstudiante`: validate the id, require an
authenticated admin, locate the student by id or internal id, then null
the wizard fields and both document URLs for every row with the found
student's id. -/
def resetearPerfilEstudiante (env : AdminActionEnv) (db : List Estudiante)
    (estudianteId : String) : ResetResult :=
  if jsTrim estudianteId = "" then
    ⟨false, "ID de estudiante inválido.", db⟩
  else
    match env.user with
    | none => ⟨false, "No hay usuario autenticado. Por favor, inicia sesión nuevamente.", db⟩
    | some uid =>
      if !(isAdminOf env.admins uid) then
        ⟨false, "No tienes permisos para realizar esta acción. Solo los administradores pueden resetear perfiles.", db⟩
      else
        match findEstudianteOr db estudianteId with
        | none => ⟨false, "No se pudo encontrar el estudiante especificado.", db⟩
        | some target =>
          match env.updateError with
          | some e =>
            ⟨false,
              updateErrorMessage
                "Error de permisos: No tienes permiso para actualizar este perfil. Por favor, contacta al administrador."
                "Error al resetear el perfil: " e,
              db⟩
          | none =>
            if db.countP (fun e => e.id = target.id) = 0 then
              ⟨false, "Error: No se encontró el registro del estudiante. Por favor, verifica el ID.", db⟩
            else
              ⟨true,
                "Perfil de " ++ displayNameOf target ++ " reseteado exitosamente. El estudiante podrá completar el formulario nuevamente.",
                db.map (fun e => if e.id = target.id then aplicarReset e else e)⟩

/-- Environment of `desvincularCuentaEstudiante`: the admin-action
context plus the Auth-deletion outcome and the freshly generated UUID. -/
structure DesvincularEnv where
  user : Option String
  admins : List String
  updateError : Option DbError
  /-- `auth.admin.deleteUser`: `some message` when it errors. -/
  deleteError : Option String
  /-- `randomUUID()` -/
  newToken : String
deriving Repr

/-- Result of `desvincularCuentaEstudiante`: `{success, message}`, the
resulting `estudiantes` table, and whether the credential-store identity
was actually deleted. -/
structure DesvincularResult where
  success : Bool
  message : String
  estudiantes : List Estudiante
  deletedAuthUser : Bool
deriving DecidableEq, Repr

/-- The step-5 unlink update: `auth_user_id = null`,
`ha_completado_onboarding = false`, fresh `onboarding_token`. -/
def aplicarDesvinculacion (tok : String) (e : Estudiante) : Estudiante :=
  { e with auth_user_id := none
           ha_completado_onboarding := false
           onboarding_token := some tok }

/-- `desvincularCuentaEstudiante`: validate the id, require an
authenticated admin, locate the student, unlink the row in the database
FIRST (null credential link, fresh token), and only then delete the
credential-store identity; a deletion failure after the update reports
the partial outcome with the database already unlinked. -/
def desvincularCuentaEstudiante (env : DesvincularEnv) (db : List Estudiante)
    (estudianteId : String) : DesvincularResult :=
  if jsTrim estudianteId = "" then
    ⟨false, "ID de estudiante inválido.", db, false⟩
  else
    match env.user with
    | none => ⟨false, "No hay usuario autenticado. Por favor, inicia sesión nuevamente.", db, false⟩
    | some uid =>
      if !(isAdminOf env.admins uid) then
        ⟨false, "No tienes permisos para realizar esta acción. Solo los administradores pueden desvincular cuentas.", db, false⟩
      else
        match findEstudianteOr db estudianteId with
        | none => ⟨false, "No se pudo encontrar el estudiante especificado.", db, false⟩
        | some target =>
          match env.updateError with
          | some e =>
            ⟨false,
              updateErrorMessage
                "Error de permisos: No tienes permiso para actualizar este registro. Por favor, contacta al administrador."
                "Error al desvincular el estudiante en la base de datos: " e,
              db, false⟩
          | none =>
            if db.countP (fun e => e.id = target.id) = 0 then
              ⟨false, "Error: No se encontró el registro del estudiante. Por favor, verifica el ID.", db, false⟩
            else
              match target.auth_user_id with
              | some _ =>
                match env.deleteError with
                | some m =>
                  ⟨false,
                    "El estudiante fue desvinculado en la base de datos, pero hubo un error al borrar el usuario de Auth: "
                      ++ (if m = "" then "Error desconocido" else m)
                      ++ ". Por favor, contacta al administrador del sistema.",
                    db.map (fun e =>
                      if e.id = target.id then aplicarDesvinculacion env.newToken e else e), false⟩
                | none =>
                  ⟨true,
                    "Cuenta de " ++ displayNameOf target ++ " desvinculada exitosamente. El usuario de Auth ha sido eliminado y se ha generado un nuevo token de activación.",
                    db.map (fun e =>
                      if e.id = target.id then aplicarDesvinculacion env.newToken e else e), true⟩
              | none =>
                ⟨true,
                  "Cuenta de " ++ displayNameOf target ++ " desvinculada exitosamente. El usuario de Auth ha sido eliminado y se ha generado un nuevo token de activación.",
                  db.map (fun e =>
                    if e.id = target.id then aplicarDesvinculacion env.newToken e else e), false⟩

/-! ## Access-control gate (`src/middleware.ts`) -/

/-- Outcome of the role lookup inside the middleware `try` block:
a row found, no row (`maybeSingle` null), an error object returned, or
an exception thrown into the `catch` handler. -/
inductive MwLookup where
  | found : MwLookup
  | notFound : MwLookup
  | errorReturned : MwLookup
  | thrown : MwLookup
deriving DecidableEq, Repr

/-- Per-request environment of the middleware: the session user (if
any) and the outcome of the admin-row lookup. -/
structure MwEnv where
  user : Option String
  adminRow : MwLookup
deriving Repr

/-- What the middleware answers: pass the request through (`allow`,
i.e. return the updated-session response) or redirect. -/
inductive MwResult where
  | allow : MwResult
  | redirectTo : String → MwResult
deriving DecidableEq, Repr

/-- `publicPaths.some(p => pathname.startsWith(p)) || pathname === '/'` -/
def isPublicPath (p : String) : Bool :=
  strStartsWith p "/activar" || strStartsWith p "/auth/callback" ||
  strStartsWith p "/login" || strStartsWith p "/unauthorized" || p = "/"

/-- `middleware` from `src/middleware.ts`: allow public paths, send
anonymous callers to `/login`, then branch on the admin-row lookup -
admins are pinned to the admin area, non-admins are pushed out of it,
and a thrown lookup error is caught: admin-area requests are redirected
to `/dashboard`, everything else is allowed. -/
def middleware (pathname : String) (env : MwEnv) : MwResult :=
  if isPublicPath pathname then .allow
  else
    match env.user with
    | none =>
      if !(isPublicPath pathname) && pathname ≠ "/login" then .redirectTo "/login"
      else .allow
    | some _ =>
      let isAdminRoute := strStartsWith pathname "/admin"
      let isDashboardRoute := strStartsWith pathname "/dashboard"
      let isRootOrAuth := pathname = "/" || strStartsWith pathname "/login" || strStartsWith pathname "/auth"
      match env.adminRow with
      | .thrown =>
        -- catch block
        if isAdminRoute then .redirectTo "/dashboard" else .allow
      | lk =>
        let isAdmin := lk = .found
        if isAdmin then
          if isDashboardRoute || isRootOrAuth then
            if pathname ≠ "/admin/dashboard" then .redirectTo "/admin/dashboard" else .allow
          else if isAdminRoute then .allow
          else if pathname ≠ "/admin/dashboard" then .redirectTo "/admin/dashboard"
          else .allow
        else
          if isAdminRoute then .redirectTo "/dashboard"
          else if isDashboardRoute then .allow
          else if isRootOrAuth then .redirectTo "/dashboard"
          else .allow

/-! ## Helper lemmas -/

/-- After `burnToken`, no row carries the burned token any more: matched
rows had it nulled, unmatched rows never had it. -/
lemma filter_burnToken (db : List Estudiante) (t uid em : String) :
    (burnToken db t uid em).filter (fun e => e.onboarding_token = some t) = [] := by
  induction db with
  | nil => rfl
  | cons a l ih =>
    unfold burnToken at ih ⊢
    by_cases h : a.onboarding_token = some t
    · simpa [List.filter_cons, h] using ih
    · simpa [List.filter_cons, h] using ih

/-- The token lookup always misses after the burn update. -/
lemma findByToken_burnToken (db : List Estudiante) (t uid em : String) :
    findByToken (burnToken db t uid em) t = none := by
  unfold findByToken
  rw [filter_burnToken]

/-- `setEstado` commutes with the id filter (ids are untouched). -/
lemma filter_setEstado (db : List Solicitud) (id st : String) :
    (setEstado db id st).filter (fun s => s.id = id)
      = (db.filter (fun s => s.id = id)).map (fun s => { s with estado := st }) := by
  induction db with
  | nil => rfl
  | cons a l ih =>
    unfold setEstado at ih ⊢
    by_cases h : a.id = id
    · simpa [List.filter_cons, h] using ih
    · simpa [List.filter_cons, h] using ih

/-- Looking a request up after `setEstado` finds the same row with the
new status. -/
lemma findSolicitud_setEstado (db : List Solicitud) (id st : String) :
    findSolicitud (setEstado db id st) id
      = (findSolicitud db id).map (fun s => { s with estado := st }) := by
  unfold findSolicitud
  rw [filter_setEstado]
  cases hl : db.filter (fun s => s.id = id) with
  | nil => rfl
  | cons s l => cases l <;> rfl

/-! ## Concrete fixtures -/

/-- A student invited with token `tok-1`, not yet onboarded. -/
def studAna : Estudiante :=
  { estudianteBase with
      id := "e1"
      id_becado_interno := some "BDI-001"
      nombre_completo_becado := some "Ana Lopez"
      correo_personal := some "ana@x.com"
      onboarding_token := some "tok-1" }

/-- Activation environment with no interference and every external call
succeeding. -/
def envClean : ActivarEnv :=
  { dbAtValidation := [studAna]
    dbAtUpdate := [studAna]
    createUserResult := some "uid-1"
    createUserErrorMsg := ""
    updateError := none
    signInOk := true
    isAdminAfter := false }

/-- Activation environment for a lost race: between the step-0
validation and the step-2 conditional update a concurrent activation
burned the token, so the update matches zero rows (and reports no
error). -/
def envRace : ActivarEnv :=
  { dbAtValidation := [studAna]
    dbAtUpdate := [{ studAna with
                       onboarding_token := none
                       ha_completado_onboarding := true
                       auth_user_id := some "uid-1"
                       correo_personal := some "rival@x.com" }]
    createUserResult := some "uid-2"
    createUserErrorMsg := ""
    updateError := none
    signInOk := true
    isAdminAfter := false }

/-! ## C1 -/

/-- C1: evaluation of `activarCuenta` at the lost-race input.  The
step-2 conditional update keyed on `onboarding_token` matches zero rows
(the token was concurrently burned), yet the operation reports success
(redirect to `/dashboard`) and never deletes the credential-store
identity `uid-2` created in step 1: the code only compensates when the
update returns an error, and a zero-row match is not an error.  This
contradicts the specified concurrency invariant, which demands
compensation and failure on an affected-row-count of zero. -/
theorem activarCuenta_lost_race_not_compensated :
    envRace.dbAtUpdate.countP (fun e => e.onboarding_token = some "tok-1") = 0
    ∧ (validarToken envRace.dbAtValidation "tok-1").success = true
    ∧ (activarCuenta envRace "tok-1" "ana@x.com" "Password1").outcome
        = .redirectTo "/dashboard"
    ∧ (activarCuenta envRace "tok-1" "ana@x.com" "Password1").createdUser = some "uid-2"
    ∧ (activarCuenta envRace "tok-1" "ana@x.com" "Password1").deletedCreatedUser = false :=
  ⟨rfl, rfl, rfl, rfl, rfl⟩

/-! ## C2 -/

/-- C2, counterexample: after a fully successful `activarCuenta` with
token `tok-1`, `validarToken tok-1` does not return the AlreadyUsed
message claimed - activation burns the token to null, so the lookup
misses and the NotFound message `Token inválido o no encontrado` is
returned instead. -/
theorem validarToken_after_activation_not_already_used :
    (activarCuenta envClean "tok-1" "ana@x.com" "Password1").outcome
      = .redirectTo "/dashboard"
    ∧ validarToken (activarCuenta envClean "tok-1" "ana@x.com" "Password1").db "tok-1"
        = ⟨false, "Token inválido o no encontrado", none⟩
    ∧ (validarToken (activarCuenta envClean "tok-1" "ana@x.com" "Password1").db "tok-1").message
        ≠ "Este token ya ha sido utilizado" :=
  ⟨rfl, rfl, by decide⟩

/-- C2, amended: after any `activarCuenta` run that reaches a redirect
(the token was burned), a subsequent `validarToken` with the same token
fails with the NotFound message `Token inválido o no encontrado` - and
in particular never returns a valid result. -/
theorem validarToken_after_activation_not_found
    (env : ActivarEnv) (token email password p : String)
    (h : (activarCuenta env token email password).outcome = .redirectTo p) :
    validarToken (activarCuenta env token email password).db token
      = ⟨false, "Token inválido o no encontrado", none⟩ := by
  unfold activarCuenta at h ⊢
  by_cases hv : (validarToken env.dbAtValidation token).success = false
  · rw [if_pos hv] at h
    simp at h
  · rw [if_neg hv] at h ⊢
    cases hpc : passwordCheck password with
    | some m => rw [hpc] at h; simp at h
    | none =>
      rw [hpc] at h
      cases hcu : env.createUserResult with
      | none => rw [hcu] at h; simp at h
      | some uid =>
        rw [hcu] at h
        cases hue : env.updateError with
        | some m => rw [hue] at h; simp at h
        | none =>
          by_cases hs : env.signInOk = true
          · by_cases ha : env.isAdminAfter = true
            · simp [hs, ha, validarToken, findByToken_burnToken]
            · simp [hs, ha, validarToken, findByToken_burnToken]
          · simp [hs, validarToken, findByToken_burnToken]

/-- C2, witness for the amended theorem at the clean concrete run. -/
theorem validarToken_after_activation_not_found_witness :
    validarToken (activarCuenta envClean "tok-1" "ana@x.com" "Password1").db "tok-1"
      = ⟨false, "Token inválido o no encontrado", none⟩ :=
  validarToken_after_activation_not_found envClean "tok-1" "ana@x.com" "Password1"
    "/dashboard" rfl

/-! ## C3 -/

/-- An approved request: already processed when `aprobarSolicitud` sees
it, yet `rechazarSolicitud` will still overwrite it. -/
def solAprobada : Solicitud :=
  { id := "s1"
    estudiante_id := "e1"
    fecha_solicitud := "2026-01-10"
    nombre_actividad := "Limpieza de playa"
    fecha_actividad := "2026-01-05"
    cantidad_horas := .num 4
    responsable_encargado := some "Carlos"
    estado := "aprobado" }

/-- Workflow state holding only the approved request. -/
def wfAprobada : WorkflowState := ⟨[solAprobada], [], []⟩

/-- Shared branch computation: `aprobarSolicitud` on an
already-processed request answers AlreadyProcessed and changes nothing. -/
lemma aprobar_processed_helper (st : WorkflowState) (id : String)
    (horas : Option JSNum) (ie ue : Option String) (s : Solicitud)
    (hid : invalidSolicitudId id = false)
    (hf : findSolicitud st.solicitudes id = some s)
    (hs : s.estado = "aprobado" ∨ s.estado = "rechazado") :
    aprobarSolicitud st id horas ie ue
      = ⟨false, "Esta solicitud ya ha sido procesada.", st⟩ := by
  unfold aprobarSolicitud
  rcases hs with hs | hs <;> simp [hid, hf, hs]

/-- C3, counterexample: `rechazarSolicitud` on a request whose status is
already `aprobado` succeeds and flips the status to `rechazado` - the
claimed terminality of processed requests does not hold for the reject
operation. -/
theorem rechazar_overrides_aprobada :
    solAprobada.estado = "aprobado"
    ∧ (rechazarSolicitud wfAprobada "s1" none).success = true
    ∧ (rechazarSolicitud wfAprobada "s1" none).state.solicitudes
        = [{ solAprobada with estado := "rechazado" }] :=
  ⟨rfl, rfl, rfl⟩

/-- C3, amended: `aprobarSolicitud` does treat `aprobado`/`rechazado` as
terminal (it answers AlreadyProcessed and leaves the state untouched),
but `rechazarSolicitud` performs no status check at all: it sets the
status of the addressed request to `rechazado` unconditionally, whatever
the current status. -/
theorem estado_terminality_amended :
    (∀ (st : WorkflowState) (id : String) (horas : Option JSNum)
        (ie ue : Option String) (s : Solicitud),
      invalidSolicitudId id = false →
      findSolicitud st.solicitudes id = some s →
      s.estado = "aprobado" ∨ s.estado = "rechazado" →
      aprobarSolicitud st id horas ie ue
        = ⟨false, "Esta solicitud ya ha sido procesada.", st⟩)
    ∧ (∀ (st : WorkflowState) (id : String),
      invalidSolicitudId id = false →
      rechazarSolicitud st id none
        = ⟨true, "Solicitud rechazada correctamente.",
            { st with solicitudes := setEstado st.solicitudes id "rechazado" }⟩) := by
  constructor
  · intro st id horas ie ue s hid hf hs
    exact aprobar_processed_helper st id horas ie ue s hid hf hs
  · intro st id hid
    unfold rechazarSolicitud
    simp [hid]

/-- C3, witness for the amended theorem at the concrete approved
request. -/
theorem estado_terminality_amended_witness :
    aprobarSolicitud wfAprobada "s1" none none none
      = ⟨false, "Esta solicitud ya ha sido procesada.", wfAprobada⟩
    ∧ rechazarSolicitud wfAprobada "s1" none
      = ⟨true, "Solicitud rechazada correctamente.",
          { wfAprobada with solicitudes := setEstado wfAprobada.solicitudes "s1" "rechazado" }⟩ :=
  ⟨estado_terminality_amended.1 wfAprobada "s1" none none none solAprobada
      (by decide) (by decide) (Or.inl (by decide)),
    estado_terminality_amended.2 wfAprobada "s1" (by decide)⟩

/-! ## C4 -/

/-- Jane Doe, internal id `BDI-042`. -/
def estJane : Estudiante :=
  { estudianteBase with
      id := "e-jane"
      id_becado_interno := some "BDI-042"
      nombre_completo_becado := some "Jane Doe" }

/-- A pending request by Jane Doe for 4 hours. -/
def solJane : Solicitud :=
  { id := "s-42"
    estudiante_id := "e-jane"
    fecha_solicitud := "2026-02-01"
    nombre_actividad := "Tutoria de becados"
    fecha_actividad := "2026-01-20"
    cantidad_horas := .num 4
    responsable_encargado := some "Maria"
    estado := "pendiente" }

/-- Workflow state with the pending Jane Doe request and no ledger rows. -/
def wfJane : WorkflowState := ⟨[solJane], [estJane], []⟩

/-- Inversion of an error-free successful `aprobarSolicitud` run: the id
passed the guard, some request row was found, and the final request
table is the original one with that id set to `aprobado`. -/
lemma aprobar_success_state (st : WorkflowState) (id : String) (h1 : Option JSNum)
    (h : (aprobarSolicitud st id h1 none none).success = true) :
    invalidSolicitudId id = false
    ∧ ∃ s, findSolicitud st.solicitudes id = some s
        ∧ (aprobarSolicitud st id h1 none none).state.solicitudes
            = setEstado st.solicitudes id "aprobado" := by
  unfold aprobarSolicitud at h
  split at h
  · simp at h
  rename_i hid
  split at h
  · simp at h
  rename_i s hf
  split at h
  · simp at h
  rename_i hproc
  split at h
  · simp at h
  rename_i e he
  split at h
  · simp at h
  rename_i hb
  split at h
  · simp at h
  rename_i nom hn
  split at h
  · simp at h
  rename_i ht
  split at h
  · simp at h
  rename_i hhv
  refine ⟨by simpa using hid, s, hf, ?_⟩
  have hres : aprobarSolicitud st id h1 none none
      = ⟨true, "Solicitud aprobada y horas registradas correctamente.",
          { solicitudes := setEstado st.solicitudes id "aprobado"
            estudiantes := st.estudiantes
            horas := st.horas ++ [horasDataOf s e nom (h1.getD s.cantidad_horas)] }⟩ := by
    unfold aprobarSolicitud
    simp [hid, hf, hproc, he, hb, hn, ht, hhv]
  rw [hres]

/-- C4: after a fully successful `aprobarSolicitud` for a request id,
a second `aprobarSolicitud` for the same id (with any hour override and
any injected errors) returns the AlreadyProcessed failure and leaves the
state - in particular the `horas_voluntariados` ledger - exactly as the
first call left it: no second ledger row is inserted. -/
theorem aprobar_twice_already_processed
    (st : WorkflowState) (id : String) (h1 h2 : Option JSNum) (ie ue : Option String)
    (h : (aprobarSolicitud st id h1 none none).success = true) :
    aprobarSolicitud (aprobarSolicitud st id h1 none none).state id h2 ie ue
      = ⟨false, "Esta solicitud ya ha sido procesada.",
          (aprobarSolicitud st id h1 none none).state⟩ := by
  obtain ⟨hid, s, hf, hsol⟩ := aprobar_success_state st id h1 h
  refine aprobar_processed_helper _ _ _ _ _ ({ s with estado := "aprobado" }) hid ?_ (Or.inl rfl)
  rw [hsol, findSolicitud_setEstado, hf]
  rfl

/-- C4, witness at the Jane Doe request (override 5 hours): the first
approval succeeds, the second answers AlreadyProcessed with nothing
inserted. -/
theorem aprobar_twice_already_processed_witness :
    aprobarSolicitud (aprobarSolicitud wfJane "s-42" (some (.num 5)) none none).state
        "s-42" (some (.num 5)) none none
      = ⟨false, "Esta solicitud ya ha sido procesada.",
          (aprobarSolicitud wfJane "s-42" (some (.num 5)) none none).state⟩ :=
  aprobar_twice_already_processed wfJane "s-42" (some (.num 5)) (some (.num 5))
    none none (by decide)

/-! ## C5 -/

/-- C5: for a pending request whose student has a non-blank internal id
and display name, `aprobarSolicitud` with no injected database errors
(a) inserts exactly one ledger row - carrying the admin-supplied hour
override if one is given and otherwise the originally requested count,
the student's internal id and display name - and marks the request
`aprobado`, when the final hour value is a positive number; and (b)
rejects a NaN or non-positive final hour value with the validation
failure and leaves the state untouched. -/
theorem aprobar_pendiente_inserts_ledger
    (st : WorkflowState) (id : String) (horas : Option JSNum)
    (s : Solicitud) (e : Estudiante) (b n : String)
    (hid : invalidSolicitudId id = false)
    (hf : findSolicitud st.solicitudes id = some s)
    (hp : s.estado = "pendiente")
    (he : findEstudianteById st.estudiantes s.estudiante_id = some e)
    (hb : e.id_becado_interno = some b) (hbne : b ≠ "")
    (hn : e.nombre_completo_becado = some n) (hnne : jsTrim n ≠ "") :
    (((horas.getD s.cantidad_horas).isNaN || (horas.getD s.cantidad_horas).le0) = false →
      aprobarSolicitud st id horas none none
        = ⟨true, "Solicitud aprobada y horas registradas correctamente.",
            { solicitudes := setEstado st.solicitudes id "aprobado"
              estudiantes := st.estudiantes
              horas := st.horas ++ [horasDataOf s e n (horas.getD s.cantidad_horas)] }⟩)
    ∧ (((horas.getD s.cantidad_horas).isNaN || (horas.getD s.cantidad_horas).le0) = true →
      aprobarSolicitud st id horas none none
        = ⟨false, "La cantidad de horas debe ser un número mayor a 0.", st⟩)
    ∧ (horasDataOf s e n (horas.getD s.cantidad_horas)).id_becado_interno = b
    ∧ (horasDataOf s e n (horas.getD s.cantidad_horas)).nombre_completo_becado = n
    ∧ (horasDataOf s e n (horas.getD s.cantidad_horas)).cantidad_horas
        = horas.getD s.cantidad_horas := by
  refine ⟨?_, ?_, ?_, ?_, ?_⟩
  · intro hv
    unfold aprobarSolicitud
    simp [hid, hf, hp, he, hb, hbne, hn, hnne, hv, falsyStr]
  · intro hv
    unfold aprobarSolicitud
    simp [hid, hf, hp, he, hb, hbne, hn, hnne, hv, falsyStr]
  · simp [horasDataOf, hb]
  · simp [horasDataOf]
  · simp [horasDataOf]

/-- C5, witness at the Jane Doe scenario: pending request for 4 hours,
override 5 - the ledger row carries `cantidad_horas = 5` and
`id_becado_interno = BDI-042`, and the request becomes `aprobado`. -/
theorem aprobar_pendiente_inserts_ledger_witness :
    aprobarSolicitud wfJane "s-42" (some (.num 5)) none none
      = ⟨true, "Solicitud aprobada y horas registradas correctamente.",
          { solicitudes := setEstado wfJane.solicitudes "s-42" "aprobado"
            estudiantes := wfJane.estudiantes
            horas := wfJane.horas ++ [horasDataOf solJane estJane "Jane Doe" (.num 5)] }⟩
    ∧ (horasDataOf solJane estJane "Jane Doe" (.num 5)).id_becado_interno = "BDI-042"
    ∧ (horasDataOf solJane estJane "Jane Doe" (.num 5)).cantidad_horas = .num 5 :=
  have h := aprobar_pendiente_inserts_ledger wfJane "s-42" (some (.num 5))
    solJane estJane "BDI-042" "Jane Doe" (by decide) (by decide) (by decide)
    (by decide) (by decide) (by decide) (by decide) (by decide)
  ⟨h.1 (by decide), h.2.2.1, h.2.2.2.2⟩

/-! ## C6 -/

/-- A fully populated, onboarded and linked student row. -/
def studFull : Estudiante :=
  { estudianteBase with
      id := "e1"
      id_becado_interno := some "BDI-001"
      nombre_completo_becado := some "Ana Lopez"
      correo_personal := some "ana@x.com"
      auth_user_id := some "au-1"
      ha_completado_onboarding := true
      fecha_de_nacimiento := some "2000-01-01"
      telefono_llamada := some "7777-0001"
      telefono_whatsapp := some "7777-0002"
      id_becado_universidad := some "U-9"
      correo_estudiantil := some "ana@uni.edu"
      departamento := some "San Salvador"
      municipio := some "San Salvador"
      distrito := some "Centro"
      nombre_emergencia := some "Luis"
      telefono_emergencia := some "7777-0003"
      parentesco_emergencia := some "Padre"
      tiene_una_discapacidad := some false
      detalle_discapacidad := some ""
      miembro_de_consejo := some true
      becado_elite := some false
      url_carnet_digital := some "https://cdn.example/carnet.pdf"
      url_expediente_digital := some "https://cdn.example/expediente.pdf" }

/-- Admin-action environment: an authenticated admin, no injected
database error. -/
def envAdminOk : AdminActionEnv :=
  { user := some "adm-1"
    admins := ["adm-1"]
    updateError := none }

/-- C6: a successful `resetearPerfilEstudiante` rewrites exactly the
rows with the located student's id by `aplicarReset`, and `aplicarReset`
nulls every wizard field and both document URLs while leaving
`auth_user_id` and `ha_completado_onboarding` (and the activation token)
unchanged. -/
theorem resetear_nulls_wizard_fields_only
    (env : AdminActionEnv) (db : List Estudiante) (id : String)
    (h : (resetearPerfilEstudiante env db id).success = true) :
    ∃ t, findEstudianteOr db id = some t
      ∧ (resetearPerfilEstudiante env db id).estudiantes
          = db.map (fun e => if e.id = t.id then aplicarReset e else e)
      ∧ ∀ e : Estudiante,
          (aplicarReset e).fecha_de_nacimiento = none
          ∧ (aplicarReset e).telefono_llamada = none
          ∧ (aplicarReset e).telefono_whatsapp = none
          ∧ (aplicarReset e).id_becado_universidad = none
          ∧ (aplicarReset e).correo_estudiantil = none
          ∧ (aplicarReset e).departamento = none
          ∧ (aplicarReset e).municipio = none
          ∧ (aplicarReset e).distrito = none
          ∧ (aplicarReset e).nombre_emergencia = none
          ∧ (aplicarReset e).telefono_emergencia = none
          ∧ (aplicarReset e).parentesco_emergencia = none
          ∧ (aplicarReset e).tiene_una_discapacidad = none
          ∧ (aplicarReset e).detalle_discapacidad = none
          ∧ (aplicarReset e).miembro_de_consejo = none
          ∧ (aplicarReset e).becado_elite = none
          ∧ (aplicarReset e).url_carnet_digital = none
          ∧ (aplicarReset e).url_expediente_digital = none
          ∧ (aplicarReset e).auth_user_id = e.auth_user_id
          ∧ (aplicarReset e).ha_completado_onboarding = e.ha_completado_onboarding
          ∧ (aplicarReset e).onboarding_token = e.onboarding_token := by
  unfold resetearPerfilEstudiante at h
  split at h
  · simp at h
  rename_i htrim
  split at h
  · simp at h
  rename_i uid hu
  split at h
  · simp at h
  rename_i hadmin
  split at h
  · simp at h
  rename_i t hfind
  split at h
  · simp at h
  rename_i hue
  split at h
  · simp at h
  rename_i hcnt
  refine ⟨t, hfind, ?_, ?_⟩
  · have hres : resetearPerfilEstudiante env db id
        = ⟨true,
            "Perfil de " ++ displayNameOf t ++ " reseteado exitosamente. El estudiante podrá completar el formulario nuevamente.",
            db.map (fun e => if e.id = t.id then aplicarReset e else e)⟩ := by
      unfold resetearPerfilEstudiante
      simp [htrim, hu, hadmin, hfind, hue, hcnt]
    rw [hres]
  · intro e
    refine ⟨rfl, rfl, rfl, rfl, rfl, rfl, rfl, rfl, rfl, rfl, rfl, rfl, rfl, rfl,
      rfl, rfl, rfl, rfl, rfl, rfl⟩

/-- C6, witness at the populated student and admin caller. -/
theorem resetear_nulls_wizard_fields_only_witness :
    ∃ t, findEstudianteOr [studFull] "e1" = some t
      ∧ (resetearPerfilEstudiante envAdminOk [studFull] "e1").estudiantes
          = [studFull].map (fun e => if e.id = t.id then aplicarReset e else e)
      ∧ ∀ e : Estudiante,
          (aplicarReset e).fecha_de_nacimiento = none
          ∧ (aplicarReset e).telefono_llamada = none
          ∧ (aplicarReset e).telefono_whatsapp = none
          ∧ (aplicarReset e).id_becado_universidad = none
          ∧ (aplicarReset e).correo_estudiantil = none
          ∧ (aplicarReset e).departamento = none
          ∧ (aplicarReset e).municipio = none
          ∧ (aplicarReset e).distrito = none
          ∧ (aplicarReset e).nombre_emergencia = none
          ∧ (aplicarReset e).telefono_emergencia = none
          ∧ (aplicarReset e).parentesco_emergencia = none
          ∧ (aplicarReset e).tiene_una_discapacidad = none
          ∧ (aplicarReset e).detalle_discapacidad = none
          ∧ (aplicarReset e).miembro_de_consejo = none
          ∧ (aplicarReset e).becado_elite = none
          ∧ (aplicarReset e).url_carnet_digital = none
          ∧ (aplicarReset e).url_expediente_digital = none
          ∧ (aplicarReset e).auth_user_id = e.auth_user_id
          ∧ (aplicarReset e).ha_completado_onboarding = e.ha_completado_onboarding
          ∧ (aplicarReset e).onboarding_token = e.onboarding_token :=
  resetear_nulls_wizard_fields_only envAdminOk [studFull] "e1" (by decide)

/-! ## C7 -/

/-- C7: the three policy-table scenarios.  An anonymous caller asking
for `/admin/dashboard` is sent to `/login`; an authenticated admin
asking for `/dashboard` is sent to the admin home `/admin/dashboard`;
an authenticated non-admin asking for `/admin/estudiantes` is sent to
the student home `/dashboard`. -/
theorem middleware_policy_scenarios (uid : String) :
    middleware "/admin/dashboard" ⟨none, .notFound⟩ = .redirectTo "/login"
    ∧ middleware "/dashboard" ⟨some uid, .found⟩ = .redirectTo "/admin/dashboard"
    ∧ middleware "/admin/estudiantes" ⟨some uid, .notFound⟩ = .redirectTo "/dashboard" :=
  ⟨rfl, rfl, rfl⟩

/-! ## C8 -/

/-- C8, counterexample: `/auth/x` is neither public nor an admin-area
route, yet an authenticated caller whose admin lookup returned an error
is redirected to `/dashboard` there - not allowed through, contradicting
the claimed `denied admin-area routes, allowed elsewhere` routing. -/
theorem middleware_lookup_error_counterexample :
    isPublicPath "/auth/x" = false
    ∧ strStartsWith "/auth/x" "/admin" = false
    ∧ middleware "/auth/x" ⟨some "u1", .errorReturned⟩ = .redirectTo "/dashboard" :=
  ⟨rfl, rfl, rfl⟩

/-- C8, amended: an errored admin lookup never crashes the request and
the caller is treated as a non-admin, in two distinct ways: a returned
error makes the middleware behave exactly as for a caller with no admin
row (so non-public root/login/auth paths still redirect to
`/dashboard`), while a thrown error lands in the catch handler, which
redirects admin-area routes to `/dashboard` and allows every other
route. -/
theorem middleware_lookup_error_amended (uid p : String)
    (hpub : isPublicPath p = false) :
    middleware p ⟨some uid, .errorReturned⟩ = middleware p ⟨some uid, .notFound⟩
    ∧ (strStartsWith p "/admin" = true →
        middleware p ⟨some uid, .thrown⟩ = .redirectTo "/dashboard")
    ∧ (strStartsWith p "/admin" = false →
        middleware p ⟨some uid, .thrown⟩ = .allow) := by
  refine ⟨rfl, ?_, ?_⟩
  · intro h
    unfold middleware
    simp [hpub, h]
  · intro h
    unfold middleware
    simp [hpub, h]

/-- C8, witness for the amended theorem at three concrete routes. -/
theorem middleware_lookup_error_amended_witness :
    middleware "/horas" ⟨some "u1", .errorReturned⟩
        = middleware "/horas" ⟨some "u1", .notFound⟩
    ∧ middleware "/admin/x" ⟨some "u2", .thrown⟩ = .redirectTo "/dashboard"
    ∧ middleware "/x" ⟨some "u3", .thrown⟩ = .allow :=
  ⟨(middleware_lookup_error_amended "u1" "/horas" (by decide)).1,
    (middleware_lookup_error_amended "u2" "/admin/x" (by decide)).2.1 (by decide),
    (middleware_lookup_error_amended "u3" "/x" (by decide)).2.2 (by decide)⟩

/-! ## C9 -/

/-- A student found by the or-search is a member of the table. -/
lemma findEstudianteOr_mem (db : List Estudiante) (key : String) (t : Estudiante)
    (h : findEstudianteOr db key = some t) : t ∈ db := by
  unfold findEstudianteOr at h
  cases hl : db.filter (fun e => e.id = key || e.id_becado_interno = some key) with
  | nil => rw [hl] at h; simp at h
  | cons a l =>
    cases l with
    | nil =>
      rw [hl] at h
      simp only [Option.some.injEq] at h
      subst h
      exact List.mem_of_mem_filter (hl ▸ List.mem_singleton.mpr rfl)
    | cons b m => rw [hl] at h; simp at h

/-- The unlink update stamps the fresh token on the row. -/
lemma aplicarDesvinculacion_token (tok : String) (e : Estudiante) :
    (aplicarDesvinculacion tok e).onboarding_token = some tok := rfl

/-- After the unlink update, the rows carrying the fresh token are
exactly the updated rows with the target id (freshness: no original row
already carried the new token). -/
lemma filter_token_after_unlink (db : List Estudiante) (tok tid : String)
    (hfresh : ∀ e ∈ db, e.onboarding_token ≠ some tok) :
    (db.map (fun e => if e.id = tid then aplicarDesvinculacion tok e else e)).filter
        (fun e => e.onboarding_token = some tok)
      = (db.filter (fun e => e.id = tid)).map (aplicarDesvinculacion tok) := by
  induction db with
  | nil => rfl
  | cons a l ih =>
    have ha := hfresh a (by simp)
    have hl2 : ∀ e ∈ l, e.onboarding_token ≠ some tok :=
      fun e he => hfresh e (by simp [he])
    by_cases h : a.id = tid
    · simp [List.filter_cons, h, aplicarDesvinculacion_token, ih hl2]
    · simp [List.filter_cons, h, ih hl2, ha]

/-- A member whose id occurs exactly once is the whole id-filter. -/
lemma filter_id_singleton (db : List Estudiante) (t : Estudiante)
    (hmem : t ∈ db) (hcnt : db.countP (fun e => e.id = t.id) = 1) :
    db.filter (fun e => e.id = t.id) = [t] := by
  have h1 : (db.filter (fun e => e.id = t.id)).length = 1 := by
    rw [← List.countP_eq_length_filter]
    exact hcnt
  obtain ⟨a, ha⟩ := List.length_eq_one.mp h1
  have htf : t ∈ db.filter (fun e => e.id = t.id) :=
    List.mem_filter.mpr ⟨hmem, by simp⟩
  rw [ha] at htf
  simp only [List.mem_singleton] at htf
  rw [ha, htf]

/-- Unlink environment whose credential-store deletion fails. -/
def envDesvFail : DesvincularEnv :=
  { user := some "adm-1"
    admins := ["adm-1"]
    updateError := none
    deleteError := some "boom"
    newToken := "tok-new" }

/-- A linked, onboarded student whose display name is missing. -/
def studNoName : Estudiante :=
  { estudianteBase with
      id := "e1"
      correo_personal := some "x@y.z"
      auth_user_id := some "au-1"
      ha_completado_onboarding := true }

/-- C9, counterexample: unlinking a linked student whose row has no
display name, with the credential deletion failing, reports the partial
message - but the subsequent `validarToken` with the fresh token returns
the IncompleteRecord failure, not a valid result as claimed. -/
theorem desvincular_partial_token_not_valid :
    studNoName.auth_user_id = some "au-1"
    ∧ (desvincularCuentaEstudiante envDesvFail [studNoName] "e1").success = false
    ∧ (desvincularCuentaEstudiante envDesvFail [studNoName] "e1").message
        = "El estudiante fue desvinculado en la base de datos, pero hubo un error al borrar el usuario de Auth: boom. Por favor, contacta al administrador del sistema."
    ∧ validarToken (desvincularCuentaEstudiante envDesvFail [studNoName] "e1").estudiantes
          "tok-new"
        = ⟨false, "Faltan datos requeridos en el registro del estudiante", none⟩ :=
  ⟨rfl, rfl, rfl, rfl⟩

/-- A linked, onboarded student with full display data. -/
def studLinked : Estudiante :=
  { estudianteBase with
      id := "e1"
      nombre_completo_becado := some "Ana Lopez"
      correo_personal := some "ana@x.com"
      auth_user_id := some "au-1"
      ha_completado_onboarding := true }

/-- C9, amended: unlinking a linked student updates the row first
(credential link nulled, onboarding cleared, fresh token) and when the
credential-store deletion then fails the operation reports the
dedicated partial-failure message (success flag false, identity not
deleted) with the database already unlinked; provided the row carries a
non-blank display name and personal email, and the fresh token collides
with no other row, a subsequent `validarToken` with the fresh token
returns valid. -/
theorem desvincular_partial_reports_and_new_token_valid
    (env : DesvincularEnv) (db : List Estudiante) (key uid au n c m : String)
    (target : Estudiante)
    (hu : env.user = some uid)
    (ha : isAdminOf env.admins uid = true)
    (hue : env.updateError = none)
    (hde : env.deleteError = some m)
    (hk : jsTrim key ≠ "")
    (hf : findEstudianteOr db key = some target)
    (hau : target.auth_user_id = some au)
    (hn : target.nombre_completo_becado = some n) (hn2 : n ≠ "")
    (hc : target.correo_personal = some c) (hc2 : c ≠ "")
    (hfresh : ∀ e ∈ db, e.onboarding_token ≠ some env.newToken)
    (hcnt : db.countP (fun e => e.id = target.id) = 1) :
    (desvincularCuentaEstudiante env db key).success = false
    ∧ (desvincularCuentaEstudiante env db key).deletedAuthUser = false
    ∧ (desvincularCuentaEstudiante env db key).message
        = "El estudiante fue desvinculado en la base de datos, pero hubo un error al borrar el usuario de Auth: "
          ++ (if m = "" then "Error desconocido" else m)
          ++ ". Por favor, contacta al administrador del sistema."
    ∧ (desvincularCuentaEstudiante env db key).estudiantes
        = db.map (fun e => if e.id = target.id then aplicarDesvinculacion env.newToken e else e)
    ∧ validarToken (desvincularCuentaEstudiante env db key).estudiantes env.newToken
        = ⟨true, "", some (n, c)⟩ := by
  have hres : desvincularCuentaEstudiante env db key
      = ⟨false,
          "El estudiante fue desvinculado en la base de datos, pero hubo un error al borrar el usuario de Auth: "
            ++ (if m = "" then "Error desconocido" else m)
            ++ ". Por favor, contacta al administrador del sistema.",
          db.map (fun e => if e.id = target.id then aplicarDesvinculacion env.newToken e else e),
          false⟩ := by
    unfold desvincularCuentaEstudiante
    simp [hk, hu, ha, hf, hue, hcnt, hau, hde]
  rw [hres]
  refine ⟨rfl, rfl, rfl, rfl, ?_⟩
  unfold validarToken findByToken
  rw [filter_token_after_unlink db env.newToken target.id hfresh,
    filter_id_singleton db target (findEstudianteOr_mem db key target hf) hcnt]
  simp [aplicarDesvinculacion, hn, hc, falsyStr, hn2, hc2]

/-- C9, witness for the amended theorem: linked student with full data,
deletion fails, the fresh token validates. -/
theorem desvincular_partial_reports_and_new_token_valid_witness :
    (desvincularCuentaEstudiante envDesvFail [studLinked] "e1").success = false
    ∧ (desvincularCuentaEstudiante envDesvFail [studLinked] "e1").deletedAuthUser = false
    ∧ (desvincularCuentaEstudiante envDesvFail [studLinked] "e1").message
        = "El estudiante fue desvinculado en la base de datos, pero hubo un error al borrar el usuario de Auth: "
          ++ (if "boom" = "" then "Error desconocido" else "boom")
          ++ ". Por favor, contacta al administrador del sistema."
    ∧ (desvincularCuentaEstudiante envDesvFail [studLinked] "e1").estudiantes
        = [studLinked].map (fun e =>
            if e.id = studLinked.id then aplicarDesvinculacion envDesvFail.newToken e else e)
    ∧ validarToken (desvincularCuentaEstudiante envDesvFail [studLinked] "e1").estudiantes
          envDesvFail.newToken
        = ⟨true, "", some ("Ana Lopez", "ana@x.com")⟩ :=
  desvincular_partial_reports_and_new_token_valid envDesvFail [studLinked] "e1"
    "adm-1" "au-1" "Ana Lopez" "ana@x.com" "boom" studLinked rfl (by decide) rfl rfl
    (by decide) (by decide) rfl rfl (by decide) rfl (by decide) (by decide) (by decide)

/-! ## C10 -/

/-- Admin-action environment whose caller is authenticated but not in
`usuarios_administrativos`. -/
def envNonAdmin : AdminActionEnv :=
  { user := some "stud-1"
    admins := ["adm-1"]
    updateError := none }

/-- Unlink environment with the same non-admin caller. -/
def envNonAdminDesv : DesvincularEnv :=
  { user := some "stud-1"
    admins := ["adm-1"]
    updateError := none
    deleteError := none
    newToken := "tok-n" }

/-- C10: the two workflow actions perform no admin-role verification -
whatever the state and injected errors, neither ever returns either
authorization-failure message, and with a valid id (and, for approval, a
valid pending request) the mutation proceeds; by contrast
`resetearPerfilEstudiante` and `desvincularCuentaEstudiante` check the
`usuarios_administrativos` row of the authenticated caller and fail with
exactly those messages for non-admins, touching nothing. -/
theorem workflow_actions_no_role_check :
    (∀ (st : WorkflowState) (id : String) (horas : Option JSNum) (ie ue : Option String),
      (aprobarSolicitud st id horas ie ue).message
          ≠ "No tienes permisos para realizar esta acción. Solo los administradores pueden resetear perfiles."
      ∧ (aprobarSolicitud st id horas ie ue).message
          ≠ "No tienes permisos para realizar esta acción. Solo los administradores pueden desvincular cuentas.")
    ∧ (∀ (st : WorkflowState) (id : String) (ue : Option String),
      (rechazarSolicitud st id ue).message
          ≠ "No tienes permisos para realizar esta acción. Solo los administradores pueden resetear perfiles."
      ∧ (rechazarSolicitud st id ue).message
          ≠ "No tienes permisos para realizar esta acción. Solo los administradores pueden desvincular cuentas.")
    ∧ (∀ (st : WorkflowState) (id : String),
      invalidSolicitudId id = false → (rechazarSolicitud st id none).success = true)
    ∧ (∀ (st : WorkflowState) (id : String) (horas : Option JSNum)
        (s : Solicitud) (e : Estudiante) (b n : String),
      invalidSolicitudId id = false →
      findSolicitud st.solicitudes id = some s →
      s.estado = "pendiente" →
      findEstudianteById st.estudiantes s.estudiante_id = some e →
      e.id_becado_interno = some b → b ≠ "" →
      e.nombre_completo_becado = some n → jsTrim n ≠ "" →
      ((horas.getD s.cantidad_horas).isNaN || (horas.getD s.cantidad_horas).le0) = false →
      (aprobarSolicitud st id horas none none).success = true)
    ∧ (∀ (env : AdminActionEnv) (db : List Estudiante) (id uid : String),
      jsTrim id ≠ "" → env.user = some uid → isAdminOf env.admins uid = false →
      resetearPerfilEstudiante env db id
        = ⟨false, "No tienes permisos para realizar esta acción. Solo los administradores pueden resetear perfiles.", db⟩)
    ∧ (∀ (env : DesvincularEnv) (db : List Estudiante) (id uid : String),
      jsTrim id ≠ "" → env.user = some uid → isAdminOf env.admins uid = false →
      desvincularCuentaEstudiante env db id
        = ⟨false, "No tienes permisos para realizar esta acción. Solo los administradores pueden desvincular cuentas.", db, false⟩) := by
  refine ⟨?_, ?_, ?_, ?_, ?_, ?_⟩
  · intro st id horas ie ue
    constructor <;> (unfold aprobarSolicitud; repeat' split) <;> simp
  · intro st id ue
    constructor <;> (unfold rechazarSolicitud; repeat' split) <;> simp
  · intro st id hid
    unfold rechazarSolicitud
    simp [hid]
  · intro st id horas s e b n hid hf hp he hb hbne hn hnne hv
    unfold aprobarSolicitud
    simp [hid, hf, hp, he, hb, hbne, hn, hnne, hv, falsyStr]
  · intro env db id uid hk hu hA
    unfold resetearPerfilEstudiante
    simp [hk, hu, hA]
  · intro env db id uid hk hu hA
    unfold desvincularCuentaEstudiante
    simp [hk, hu, hA]

/-- C10, witness: concrete non-admin caller - the workflow actions
mutate, the two student admin actions refuse with the authorization
message. -/
theorem workflow_actions_no_role_check_witness :
    (aprobarSolicitud wfJane "s-42" none none none).message
        ≠ "No tienes permisos para realizar esta acción. Solo los administradores pueden resetear perfiles."
    ∧ (rechazarSolicitud wfJane "s-42" none).success = true
    ∧ (aprobarSolicitud wfJane "s-42" (some (.num 5)) none none).success = true
    ∧ resetearPerfilEstudiante envNonAdmin [studFull] "e1"
        = ⟨false, "No tienes permisos para realizar esta acción. Solo los administradores pueden resetear perfiles.", [studFull]⟩
    ∧ desvincularCuentaEstudiante envNonAdminDesv [studFull] "e1"
        = ⟨false, "No tienes permisos para realizar esta acción. Solo los administradores pueden desvincular cuentas.", [studFull], false⟩ :=
  ⟨(workflow_actions_no_role_check.1 wfJane "s-42" none none none).1,
    workflow_actions_no_role_check.2.2.1 wfJane "s-42" (by decide),
    workflow_actions_no_role_check.2.2.2.1 wfJane "s-42" (some (.num 5))
      solJane estJane "BDI-042" "Jane Doe" (by decide) (by decide) (by decide)
      (by decide) (by decide) (by decide) (by decide) (by decide) (by decide),
    workflow_actions_no_role_check.2.2.2.2.1 envNonAdmin [studFull] "e1" "stud-1"
      (by decide) rfl (by decide),
    workflow_actions_no_role_check.2.2.2.2.2 envNonAdminDesv [studFull] "e1" "stud-1"
      (by decide) rfl (by decide)⟩
